import Mathlib

/-!
Verification development for the push-to-talk voice assistant
(`voice_assistant.py`).  The definitions below are a shallow embedding of
the source program: the dialog-service client `ask_llama`, the
VAD-endpointed capture loop `record_until_silence`, the Bluetooth profile
helper `bt_set_profile`, and the orchestrating event loop `main`.
External effects (the HTTP response, the byte stream delivered by `parec`,
the per-frame voice-activity decision, the input events and the results of
whisper) are passed in as explicit values or oracle functions; machine
state mutated by the loops is threaded explicitly.
-/

/- ### JSON values and the extraction path used by `ask_llama` -/

/-- A JSON value, as produced by `r.json()` in `ask_llama`
(`voice_assistant.py` line 109). -/
inductive Json where
  | null : Json
  | bool (b : Bool) : Json
  | num (n : Int) : Json
  | str (s : String) : Json
  | arr (elems : List Json) : Json
  | obj (fields : List (String × Json)) : Json

/-- Python dictionary indexing `j[key]`: succeeds only on an object that
has the key; any other shape raises, which the caller of this helper
treats as an extraction failure (the `except Exception` branch). -/
def jsonGet (j : Json) (key : String) : Option Json :=
  match j with
  | Json.obj fields => (fields.find? (fun kv => kv.1 == key)).map (fun kv => kv.2)
  | _ => none

/-- Python list indexing `j[i]` on a parsed JSON value. -/
def jsonAt (j : Json) (i : Nat) : Option Json :=
  match j with
  | Json.arr elems => elems[i]?
  | _ => none

/-- Coerce a JSON value to a string; a non-string makes the subsequent
`.strip()` call raise, which again lands in the `except Exception` branch. -/
def jsonStr : Json → Option String
  | Json.str s => some s
  | _ => none

/-- The extraction `j["choices"][0]["message"]["content"]` from
`voice_assistant.py` line 112; `none` models any exception raised on the
way (missing key, wrong shape, index out of range, non-string content). -/
def extract_content (j : Json) : Option String :=
  (jsonGet j "choices").bind (fun c =>
    (jsonAt c 0).bind (fun m0 =>
      (jsonGet m0 "message").bind (fun m =>
        (jsonGet m "content").bind jsonStr)))

/-- Python `str.strip()`: remove leading and trailing whitespace. -/
def pyStrip (s : String) : String :=
  String.mk (((s.data.dropWhile Char.isWhitespace).reverse.dropWhile
    Char.isWhitespace).reverse)

example : pyStrip "  hello \n" = "hello" := by decide
example : pyStrip "ok" = "ok" := by decide

/- ### The dialog-service call `ask_llama` (lines 85-118) -/

/-- Exceptions that can escape `ask_llama`: `requests.Timeout` raised by
`requests.post(..., timeout=60)` at line 104, and the JSON decode error
raised by `r.json()` at line 109 when the body is not valid JSON.  Neither
is caught anywhere in the program. -/
inductive LlamaError where
  | timeout : LlamaError
  | jsonDecode : LlamaError
deriving DecidableEq

/-- The body of an HTTP response: either not parseable as JSON (so
`r.json()` raises) or a parsed JSON value. -/
inductive HttpBody where
  | malformed (raw : String) : HttpBody
  | parsed (j : Json) : HttpBody

/-- Outcome of the single `requests.post` call: either the 60 s timeout
expires, or a response with a status code and a body arrives. -/
inductive LlamaOutcome where
  | timeout : LlamaOutcome
  | response (status : Nat) (body : HttpBody) : LlamaOutcome

/-- What one invocation of `ask_llama` does: the list of prompts POSTed to
the server (in order), and either the returned string or the exception
that propagates to the caller. -/
structure LlamaCall where
  requests : List String
  result : Except LlamaError String

/-- `ask_llama` (lines 85-118), as a function of the prompt and of the
outcome of its HTTP call.  Exactly one request is issued; a non-200
status returns `""` (line 107) before the body is ever parsed; on a 200
response the body is parsed by `r.json()` (raising on malformed bodies),
and only the `choices[0].message.content` extraction is guarded by
`try/except`, yielding `""` on failure and the stripped content on
success. -/
def ask_llama (prompt : String) (outcome : LlamaOutcome) : LlamaCall :=
  { requests := [prompt]
    result :=
      match outcome with
      | LlamaOutcome.timeout => Except.error LlamaError.timeout
      | LlamaOutcome.response status body =>
        if status ≠ 200 then Except.ok ""
        else
          match body with
          | HttpBody.malformed _ => Except.error LlamaError.jsonDecode
          | HttpBody.parsed j =>
            match extract_content j with
            | some text => Except.ok (pyStrip text)
            | none => Except.ok "" }

deriving instance DecidableEq for Except

/-- A well-formed dialog-service response body whose answer text is `s`. -/
def goodJson (s : String) : Json :=
  Json.obj [("choices", Json.arr [Json.obj
    [("message", Json.obj [("content", Json.str s)])]])]

example : extract_content (goodJson "ok") = some "ok" := rfl
example : (ask_llama "hi" (LlamaOutcome.response 200
    (HttpBody.parsed (goodJson "ok")))).result = Except.ok "ok" := by decide
example : (ask_llama "hi" (LlamaOutcome.response 500
    (HttpBody.parsed (goodJson "ok")))).result = Except.ok "" := rfl
example : (ask_llama "hi" LlamaOutcome.timeout).result
    = Except.error LlamaError.timeout := rfl
example : (ask_llama "hi" (LlamaOutcome.response 200
    (HttpBody.malformed "oops"))).result = Except.error LlamaError.jsonDecode := rfl

/- ### The VAD-endpointed capture loop `record_until_silence` (lines 132-182) -/

/-- `sample_rate = 16000` (line 140). -/
def sample_rate : Nat := 16000

/-- `frame_duration = 30` ms (line 141). -/
def frame_duration : Nat := 30

/-- `frame_size = int(sample_rate * frame_duration / 1000) * 2` bytes
(line 142). -/
def frame_size : Nat := sample_rate * frame_duration / 1000 * 2

example : frame_size = 960 := rfl

/-- The silence timeout of the endpointing check at line 169, in
milliseconds (`time.time() - silence_start > 1.0`). -/
def silence_timeout_ms : Nat := 1000

/-- The body of the `while True` loop of `record_until_silence`
(lines 156-171), over the byte stream that `parec` writes to its stdout
pipe (a byte modelled as a `Nat`).

* `classify` is the external voice-activity classifier
  `vad.is_speech(frame, sample_rate)` (line 164), a pure per-frame
  decision as the spec requires of the swappable classifier.
* `p.stdout.read(frame_size)` returns the next `frame_size` bytes of the
  stream, or fewer at end of stream, or `b""` when the stream is
  exhausted, upon which the loop breaks (lines 157-159).
* Time is idealised: capturing one frame of audio takes exactly
  `frame_duration` ms, so the read of the `i`-th frame completes
  `frame_duration` ms after the previous one; `now` is the clock value
  when the current read returned, and `lastSpeech` is the running value
  of the `silence_start` variable (initialised at line 154 to the session
  start, reset to the current time on every Speech frame at line 167).

The result is `(audio_data, stop time, frames processed in order)`: the
loop state `audio_data` (extended with every frame at line 161, before
and regardless of classification) and the list of frames that were read
and handed to the classifier, returned directly by the recursion instead
of being threaded as accumulators. -/
def recLoop (classify : List Nat → Bool) (stream : List Nat)
    (now lastSpeech : Nat) : List Nat × Nat × List (List Nat) :=
  match stream with
  | [] => ([], now, [])
  | b :: bs =>
    let frame := (b :: bs).take frame_size
    let rest := (b :: bs).drop frame_size
    let t := now + frame_duration
    if classify frame then
      let r := recLoop classify rest t t
      (frame ++ r.1, r.2.1, frame :: r.2.2)
    else if t - lastSpeech > silence_timeout_ms then
      (frame, t, [frame])
    else
      let r := recLoop classify rest t lastSpeech
      (frame ++ r.1, r.2.1, frame :: r.2.2)
termination_by stream.length
decreasing_by
  all_goals
    simp only [List.length_drop, List.length_cons]
    have h : frame_size = 960 := rfl
    omega


/-- `record_until_silence` (lines 132-182): run the capture loop from
session start (`silence_start = time.time()` at line 154, modelled as
clock value 0). -/
def record_until_silence (classify : List Nat → Bool) (stream : List Nat) :
    List Nat × Nat × List (List Nat) :=
  recLoop classify stream 0 0

/-- Unfolding lemma for `recLoop` on a nonempty stream. -/
theorem recLoop_cons (classify : List Nat → Bool) (b : Nat) (bs : List Nat)
    (now lastSpeech : Nat) :
    recLoop classify (b :: bs) now lastSpeech =
      (let frame := (b :: bs).take frame_size
       let rest := (b :: bs).drop frame_size
       let t := now + frame_duration
       if classify frame then
         let r := recLoop classify rest t t
         (frame ++ r.1, r.2.1, frame :: r.2.2)
       else if t - lastSpeech > silence_timeout_ms then
         (frame, t, [frame])
       else
         let r := recLoop classify rest t lastSpeech
         (frame ++ r.1, r.2.1, frame :: r.2.2)) := by
  rw [recLoop]

/-- The stream cut into the chunks delivered by successive
`p.stdout.read(frame_size)` calls: `frame_size`-byte frames, the last one
possibly shorter when the source is exhausted mid-frame. -/
def chunkFrames (stream : List Nat) : List (List Nat) :=
  match stream with
  | [] => []
  | b :: bs => (b :: bs).take frame_size :: chunkFrames ((b :: bs).drop frame_size)
termination_by stream.length
decreasing_by
  simp only [List.length_drop, List.length_cons]
  have h : frame_size = 960 := rfl
  omega

/-- The spec's endpointing policy (spec §4.2), stated in its own words over
a sequence of frames: maintain `lastSpeechTimestamp`, initialised to
session start; on each Speech frame update it to the frame's arrival time;
on each Silence frame, if `now - lastSpeechTimestamp > silenceTimeout`,
signal EndOfUtterance.  Returns the frames consumed up to and including
the one at which EndOfUtterance fires (all of them if the stream ends
first). -/
def spec_endpointer_frames (classify : List Nat → Bool) :
    List (List Nat) → Nat → Nat → List (List Nat)
  | [], _, _ => []
  | f :: rest, now, lastSpeechTimestamp =>
    let arrival := now + frame_duration
    if classify f then
      f :: spec_endpointer_frames classify rest arrival arrival
    else if arrival - lastSpeechTimestamp > silence_timeout_ms then [f]
    else f :: spec_endpointer_frames classify rest arrival lastSpeechTimestamp

/-- The frames processed by the capture loop are exactly the frames the
spec's endpointing policy consumes from the chunked stream. -/
theorem recLoop_frames_endpointer (classify : List Nat → Bool)
    (stream : List Nat) (now lastSpeech : Nat) :
    (recLoop classify stream now lastSpeech).2.2 =
      spec_endpointer_frames classify (chunkFrames stream) now lastSpeech := by
  induction stream, now, lastSpeech using recLoop.induct classify with
  | case1 now ls =>
    simp [recLoop, chunkFrames, spec_endpointer_frames]
  | case2 now ls b bs frame rest t hcl ih =>
    rw [recLoop_cons, chunkFrames]
    simp [spec_endpointer_frames, hcl, ih]
  | case3 now ls b bs frame t hcl hstop =>
    rw [recLoop_cons, chunkFrames]
    simp [spec_endpointer_frames, hcl, hstop]
  | case4 now ls b bs frame rest t hcl hstop ih =>
    rw [recLoop_cons, chunkFrames]
    simp [spec_endpointer_frames, hcl, hstop, ih]

/-- The audio the capture loop accumulates is exactly the concatenation of
every frame it processed: every frame is appended, before and regardless
of its speech/silence classification. -/
theorem recLoop_audio_flatten (classify : List Nat → Bool)
    (stream : List Nat) (now lastSpeech : Nat) :
    (recLoop classify stream now lastSpeech).1 =
      ((recLoop classify stream now lastSpeech).2.2).flatten := by
  induction stream, now, lastSpeech using recLoop.induct classify with
  | case1 now ls =>
    simp [recLoop]
  | case2 now ls b bs frame rest t hcl ih =>
    rw [recLoop_cons]
    simp [hcl, ih]
  | case3 now ls b bs frame t hcl hstop =>
    rw [recLoop_cons]
    simp [hcl, hstop]
  | case4 now ls b bs frame rest t hcl hstop ih =>
    rw [recLoop_cons]
    simp [hcl, hstop, ih]

/-- The audio the capture loop accumulates is a prefix of the source
stream: no captured byte is dropped and none is reordered. -/
theorem recLoop_audio_take (classify : List Nat → Bool)
    (stream : List Nat) (now lastSpeech : Nat) :
    ∃ n, (recLoop classify stream now lastSpeech).1 = stream.take n := by
  induction stream, now, lastSpeech using recLoop.induct classify with
  | case1 now ls =>
    exact ⟨0, by simp [recLoop]⟩
  | case2 now ls b bs frame rest t hcl ih =>
    obtain ⟨n, hn⟩ := ih
    refine ⟨frame_size + n, ?_⟩
    rw [recLoop_cons]
    simp only [hcl, if_pos, List.take_add]
    simp [hn]
  | case3 now ls b bs frame t hcl hstop =>
    refine ⟨frame_size, ?_⟩
    rw [recLoop_cons]
    simp [hcl, hstop]
  | case4 now ls b bs frame rest t hcl hstop ih =>
    obtain ⟨n, hn⟩ := ih
    refine ⟨frame_size + n, ?_⟩
    rw [recLoop_cons]
    simp only [hcl, hstop, List.take_add]
    simp [hn]

/-- If every frame the loop processes is classified as silence, the loop
stops no later than `silence_timeout_ms + frame_duration` after the later
of the loop entry time and the initial `silence_start` value. -/
theorem recLoop_silent_stop (classify : List Nat → Bool)
    (stream : List Nat) (now lastSpeech : Nat)
    (hnow : now ≤ lastSpeech + silence_timeout_ms)
    (hsilent : ∀ f ∈ (recLoop classify stream now lastSpeech).2.2,
      classify f = false) :
    (recLoop classify stream now lastSpeech).2.1 ≤
      lastSpeech + silence_timeout_ms + frame_duration := by
  induction stream, now, lastSpeech using recLoop.induct classify with
  | case1 now ls =>
    simpa [recLoop] using Nat.le_trans hnow (Nat.le_add_right _ _)
  | case2 now ls b bs frame rest t hcl ih =>
    exfalso
    have hf : classify frame = false := by
      apply hsilent
      rw [recLoop_cons]
      simp [hcl]
    rw [hcl] at hf
    simp at hf
  | case3 now ls b bs frame t hcl hstop =>
    rw [recLoop_cons]
    simp [hcl, hstop]
    omega
  | case4 now ls b bs frame rest t hcl hstop ih =>
    rw [recLoop_cons] at hsilent ⊢
    simp only [Bool.not_eq_true] at hcl
    simp only [hcl, Bool.false_eq_true, if_false, if_neg hstop] at hsilent ⊢
    exact ih (by omega) (fun f hf => hsilent f (List.mem_cons_of_mem _ hf))

/-- On an exhausted stream the loop processes no frames. -/
theorem recLoop_nil_frames (classify : List Nat → Bool) (now lastSpeech : Nat) :
    (recLoop classify [] now lastSpeech).2.2 = [] := by
  simp [recLoop]

/-- A frame read from a nonempty stream is nonempty. -/
theorem take_frame_pos (b : Nat) (bs : List Nat) :
    0 < ((b :: bs).take frame_size).length := by
  rw [List.length_take, List.length_cons]
  have h : frame_size = 960 := rfl
  omega

/-- A frame read from the stream holds at most `frame_size` bytes. -/
theorem take_frame_le (b : Nat) (bs : List Nat) :
    ((b :: bs).take frame_size).length ≤ frame_size := by
  rw [List.length_take]
  omega

/-- A frame read from a stream that still has bytes left afterwards holds
exactly `frame_size` bytes. -/
theorem take_frame_eq (b : Nat) (bs : List Nat)
    (h : (b :: bs).drop frame_size ≠ []) :
    ((b :: bs).take frame_size).length = frame_size := by
  have hlen : frame_size < bs.length + 1 := by
    rcases Nat.lt_or_ge frame_size (bs.length + 1) with hlt | hge
    · exact hlt
    · exact absurd (List.drop_eq_nil_of_le (by simpa using hge)) h
  rw [List.length_take, List.length_cons]
  omega

/-- Sizes of the frames the capture loop processes: every frame is
nonempty and at most `frame_size` bytes, and every frame other than the
final one is exactly `frame_size` bytes.  (The final frame is shorter
when the stream is exhausted mid-frame.) -/
theorem recLoop_frame_sizes (classify : List Nat → Bool)
    (stream : List Nat) (now lastSpeech : Nat) :
    (∀ f ∈ (recLoop classify stream now lastSpeech).2.2,
      0 < f.length ∧ f.length ≤ frame_size) ∧
    (∀ f ∈ ((recLoop classify stream now lastSpeech).2.2).dropLast,
      f.length = frame_size) := by
  induction stream, now, lastSpeech using recLoop.induct classify with
  | case1 now ls =>
    simp [recLoop]
  | case2 now ls b bs frame rest t hcl ih =>
    rw [recLoop_cons]
    simp only [hcl, if_pos]
    constructor
    · intro f hf
      rcases List.mem_cons.mp hf with hf | hf
      · subst hf
        exact ⟨take_frame_pos b bs, take_frame_le b bs⟩
      · exact ih.1 f hf
    · intro f hf
      rcases h : (recLoop classify rest t t).2.2 with _ | ⟨g, gs⟩
      · simp [h] at hf
      · rw [h, List.dropLast_cons₂] at hf
        rcases List.mem_cons.mp hf with hf | hf
        · subst hf
          apply take_frame_eq
          intro hre
          have h2 : rest = [] := hre
          rw [h2, recLoop_nil_frames] at h
          exact List.noConfusion h
        · exact ih.2 f (by rw [h]; exact hf)
  | case3 now ls b bs frame t hcl hstop =>
    rw [recLoop_cons]
    simp only [hcl, Bool.false_eq_true, if_false, if_pos hstop]
    constructor
    · intro f hf
      rcases List.mem_cons.mp hf with hf | hf
      · subst hf
        exact ⟨take_frame_pos b bs, take_frame_le b bs⟩
      · simp at hf
    · intro f hf
      simp at hf
  | case4 now ls b bs frame rest t hcl hstop ih =>
    rw [recLoop_cons]
    simp only [hcl, Bool.false_eq_true, if_false, if_neg hstop]
    constructor
    · intro f hf
      rcases List.mem_cons.mp hf with hf | hf
      · subst hf
        exact ⟨take_frame_pos b bs, take_frame_le b bs⟩
      · exact ih.1 f hf
    · intro f hf
      rcases h : (recLoop classify rest t ls).2.2 with _ | ⟨g, gs⟩
      · simp [h] at hf
      · rw [h, List.dropLast_cons₂] at hf
        rcases List.mem_cons.mp hf with hf | hf
        · subst hf
          apply take_frame_eq
          intro hre
          have h2 : rest = [] := hre
          rw [h2, recLoop_nil_frames] at h
          exact List.noConfusion h
        · exact ih.2 f (by rw [h]; exact hf)

/-- The loop's stop time is the session-relative arrival time of the last
frame it processed: one `frame_duration` per processed frame. -/
theorem recLoop_stop_time (classify : List Nat → Bool)
    (stream : List Nat) (now lastSpeech : Nat) :
    (recLoop classify stream now lastSpeech).2.1 =
      now + frame_duration * (recLoop classify stream now lastSpeech).2.2.length := by
  induction stream, now, lastSpeech using recLoop.induct classify with
  | case1 now ls =>
    simp [recLoop]
  | case2 now ls b bs frame rest t hcl ih =>
    rw [recLoop_cons]
    simp only [hcl, if_pos]
    simp only [List.length_cons]
    rw [ih]
    ring
  | case3 now ls b bs frame t hcl hstop =>
    rw [recLoop_cons]
    simp [hcl, hstop]
  | case4 now ls b bs frame rest t hcl hstop ih =>
    rw [recLoop_cons]
    simp only [hcl, Bool.false_eq_true, if_false, if_neg hstop]
    simp only [List.length_cons]
    rw [ih]
    ring

/-- Cutting the concatenation of full-sized frames back into chunks
recovers exactly those frames. -/
theorem chunkFrames_flatten (frames : List (List Nat))
    (h : ∀ f ∈ frames, f.length = frame_size) :
    chunkFrames frames.flatten = frames := by
  induction frames with
  | nil =>
    simp [chunkFrames]
  | cons f fs ih =>
    have hf : f.length = frame_size := h f (List.mem_cons_self f fs)
    have hpos : f ≠ [] := by
      intro hnil
      rw [hnil] at hf
      simp at hf
      have : frame_size = 960 := rfl
      omega
    cases hfe : f with
    | nil => exact absurd hfe hpos
    | cons b bs =>
      rw [List.flatten_cons, List.cons_append, chunkFrames, ← List.cons_append,
          List.take_left' (by rw [← hfe]; exact hf),
          List.drop_left' (by rw [← hfe]; exact hf),
          ih (fun g hg => h g (List.mem_cons_of_mem f hg))]

/- ### The spec's capture scenario: 2.0 s of speech, then silence -/

/-- A 30 ms frame of speech-like audio (for a scenario classifier that
looks at the first byte). -/
def speech_frame : List Nat := List.replicate frame_size 1

/-- A 30 ms frame of silence. -/
def silence_frame : List Nat := List.replicate frame_size 0

/-- A concrete stand-in for the swappable voice-activity classifier:
a frame counts as speech when its first byte is `1`. -/
def byte_classifier : List Nat → Bool := fun f => f.headD 0 == 1

/-- The frame sequence of the spec's scenario: 2.01 s (67 frames) of
Speech frames followed by 1.2 s (40 frames) of Silence frames. -/
def scenario_frames : List (List Nat) :=
  List.replicate 67 speech_frame ++ List.replicate 40 silence_frame

/-- The byte stream of the spec's scenario. -/
def scenario_stream : List Nat := scenario_frames.flatten

example : (spec_endpointer_frames byte_classifier scenario_frames 0 0).length
    = 101 := by decide

/-- The scenario byte stream cuts back into its frames. -/
theorem scenario_chunk : chunkFrames scenario_stream = scenario_frames := by
  apply chunkFrames_flatten
  intro f hf
  rcases List.mem_append.mp hf with hf | hf
  · rw [List.eq_of_mem_replicate hf]
    exact List.length_replicate frame_size 1
  · rw [List.eq_of_mem_replicate hf]
    exact List.length_replicate frame_size 0

/-- On the scenario stream the capture loop processes exactly the frames
the spec endpointer consumes. -/
theorem scenario_record_frames :
    (record_until_silence byte_classifier scenario_stream).2.2 =
      spec_endpointer_frames byte_classifier scenario_frames 0 0 := by
  rw [record_until_silence, recLoop_frames_endpointer, scenario_chunk]

/-- The scenario capture processes 101 frames: all 67 Speech frames and
then 34 Silence frames, stopping at the first silence frame whose arrival
time exceeds the last speech arrival (2010 ms) by more than 1000 ms. -/
theorem scenario_frame_count :
    (record_until_silence byte_classifier scenario_stream).2.2.length = 101 := by
  rw [scenario_record_frames]
  decide

/-- The scenario capture stops at t = 3030 ms: about 3.0 s of audio
(2.01 s of speech plus the 1.0 s silence timeout), not 1.2 s. -/
theorem scenario_stop_time :
    (record_until_silence byte_classifier scenario_stream).2.1 = 3030 := by
  rw [record_until_silence, recLoop_stop_time]
  rw [show (recLoop byte_classifier scenario_stream 0 0).2.2
      = (record_until_silence byte_classifier scenario_stream).2.2 from rfl]
  rw [scenario_frame_count]
  rfl

/- ### The Bluetooth profile helper `bt_set_profile` (lines 45-49) -/

/-- The result of the underlying `pactl set-card-profile` command: the
hardware switch either succeeds or fails (non-zero exit status or
timeout). -/
inductive CmdResult where
  | success : CmdResult
  | failure : CmdResult
deriving DecidableEq

/-- A route error, as the spec's `RouteError` taxonomy names it.  The
source never constructs or reports one: this type only serves to state
what `bt_set_profile` would have to return for the spec to hold. -/
inductive RouteError where
  | switchFailed : RouteError
deriving DecidableEq

/-- `bt_set_profile` (lines 45-49) as a function of the requested profile
and of the result of the underlying `pactl` command.  The source runs
`subprocess.run` with both stdout and stderr discarded, never inspects
the returned `CompletedProcess`, and returns `None`: the caller observes
no error, whatever the command did. -/
def bt_set_profile (profile : String) (cmd : CmdResult) : Option RouteError :=
  match profile, cmd with
  | _, _ => none

/-- The startup reset (lines 196-203) as a function of the results of its
two profile-switch commands (`off`, then `a2dp_sink`).  The source
ignores both `subprocess.run` results and falls through to the event
loop unconditionally: `true` means the process continues into the
wait-for-button loop. -/
def startup_reset_continues (offCmd a2dpCmd : CmdResult) : Bool :=
  match offCmd, a2dpCmd with
  | _, _ => true

/- ### The orchestrating event loop `main` (lines 188-267) -/

/-- `EV_KEY` from `evdev.ecodes`. -/
def EV_KEY : Nat := 1

/-- `PLAY_SCANCODES = {200, 201}` (line 17). -/
def PLAY_SCANCODES : List Nat := [200, 201]

/-- Externally observable actions of the event loop, in program order:
profile switches, settle sleeps (in ms), the capture run, the whisper
transcription (with its resulting text), the dialog-service call (with
the prompt it is given) and the synthesizer+playback call (with the text
it is given to speak). -/
inductive Act where
  | setProfile (profile : String) : Act
  | sleep (ms : Nat) : Act
  | record : Act
  | stt (text : String) : Act
  | askLlama (prompt : String) : Act
  | speak (text : String) : Act
deriving DecidableEq

/-- Environment of one press-triggered session: the transcript whisper
produces for the captured audio, and the outcome of the dialog-service
HTTP call. -/
structure SessionEnv where
  transcript : String
  llama : LlamaOutcome

/-- The body of the press branch of `main` (lines 227-239): switch to
`handsfree_head_unit` and settle 0.8 s, run `record_until_silence`, run
whisper, call `ask_llama` on the transcript, then switch to `a2dp_sink`,
settle 0.7 s and speak the answer.  There is no emptiness test anywhere
on the transcript or the answer.  Returns the actions performed and
whether `ask_llama` raised (which aborts `main` altogether, so the
profile switch and `tts_speak` do not happen in that case). -/
def session_actions (env : SessionEnv) : List Act × Bool :=
  match (ask_llama env.transcript env.llama).result with
  | Except.ok answer =>
      ([Act.setProfile "handsfree_head_unit", Act.sleep 800,
        Act.record, Act.stt env.transcript,
        Act.askLlama env.transcript,
        Act.setProfile "a2dp_sink", Act.sleep 700,
        Act.speak answer], false)
  | Except.error _ =>
      ([Act.setProfile "handsfree_head_unit", Act.sleep 800,
        Act.record, Act.stt env.transcript,
        Act.askLlama env.transcript], true)

/-- The body of the hold-to-talk release branch of `main`
(lines 244-267): stop the recorder, run whisper, call `ask_llama`, switch
to `a2dp_sink`, settle 0.7 s and speak the answer. -/
def hold_actions (env : SessionEnv) : List Act × Bool :=
  match (ask_llama env.transcript env.llama).result with
  | Except.ok answer =>
      ([Act.stt env.transcript, Act.askLlama env.transcript,
        Act.setProfile "a2dp_sink", Act.sleep 700,
        Act.speak answer], false)
  | Except.error _ =>
      ([Act.stt env.transcript, Act.askLlama env.transcript], true)

/-- One event yielded by `dev.read_loop()` (line 218): its type, scan
code and key state, plus the oracle for the wall-clock test
`time.time() - last_press_time > 0.5` of the hold branch (line 245),
which depends on real time and is therefore an input of the model. -/
structure InputEvent where
  etype : Nat
  scancode : Nat
  keystate : Nat
  holdTimeout : Bool

/-- The mutable state of `main`'s event loop: the `is_recording` and
`recording_proc` variables (lines 211-212), the number of press-triggered
sessions started so far, the number of times the hold-to-talk branch has
run, the actions performed so far (startup included), and whether an
uncaught exception has aborted `main`. -/
structure LoopState where
  is_recording : Bool
  recording_proc : Bool
  sessions : Nat
  holdRuns : Nat
  trace : List Act
  crashed : Bool

/-- Whether an event takes the press branch (line 224):
`event.type == ecodes.EV_KEY`, `key.scancode in PLAY_SCANCODES` and
`key.keystate == 1`. -/
def is_press (e : InputEvent) : Bool :=
  e.etype == EV_KEY && PLAY_SCANCODES.contains e.scancode && e.keystate == 1

/-- One iteration of the `for event in dev.read_loop()` loop
(lines 218-267), parameterised by the per-session environment oracle
`env` (indexed by how many sessions have started).  A crashed process
consumes no further events.  The press branch (lines 224-239) runs a full
session; afterwards the hold branch (lines 244-267) runs only if
`is_recording` is set and the 0.5 s hold timer has expired. -/
def handle_event (env : Nat → SessionEnv) (s : LoopState) (e : InputEvent) :
    LoopState :=
  if s.crashed then s
  else
    let s1 :=
      if is_press e then
        let p := session_actions (env s.sessions)
        { s with sessions := s.sessions + 1, trace := s.trace ++ p.1,
                 crashed := p.2 }
      else s
    if s1.crashed then s1
    else if s1.is_recording then
      if e.holdTimeout then
        let p := hold_actions (env s1.sessions)
        { s1 with is_recording := false, recording_proc := false,
                  holdRuns := s1.holdRuns + 1, trace := s1.trace ++ p.1,
                  crashed := p.2 }
      else s1
    else s1

/-- The startup actions of `main` (lines 196-200): force the card `off`,
sleep 0.4 s, force `a2dp_sink`, sleep 1.0 s. -/
def startup_trace : List Act :=
  [Act.setProfile "off", Act.sleep 400,
   Act.setProfile "a2dp_sink", Act.sleep 1000]

/-- The state of `main` when the event loop is entered:
`recording_proc = None`, `is_recording = False` (lines 211-212), no
sessions yet, startup actions already performed. -/
def initial_state : LoopState :=
  { is_recording := false, recording_proc := false, sessions := 0,
    holdRuns := 0, trace := startup_trace, crashed := false }

/-- The whole of `main` (lines 188-267) over a finite list of input
events: the startup reset followed by the event loop. -/
def main_loop (env : Nat → SessionEnv) (events : List InputEvent) : LoopState :=
  events.foldl (handle_event env) initial_state

/- ### Route-ordering discipline of the action trace -/

/-- Traces in which capture and playback are always immediately preceded
by the matching profile switch and its settle sleep: the trace is
generated by plain actions (anything but `record`/`speak`), capture
guard triples, and playback guard triples. -/
inductive RouteOrdered : List Act → Prop where
  | nil : RouteOrdered []
  | plain (a : Act) (l : List Act)
      (hrec : a ≠ Act.record) (hspeak : ∀ s, a ≠ Act.speak s)
      (h : RouteOrdered l) : RouteOrdered (a :: l)
  | capture (l : List Act) (h : RouteOrdered l) :
      RouteOrdered (Act.setProfile "handsfree_head_unit" :: Act.sleep 800 ::
        Act.record :: l)
  | playback (ans : String) (l : List Act) (h : RouteOrdered l) :
      RouteOrdered (Act.setProfile "a2dp_sink" :: Act.sleep 700 ::
        Act.speak ans :: l)

/-- Route ordering is preserved by concatenation. -/
theorem RouteOrdered.append {l1 l2 : List Act}
    (h1 : RouteOrdered l1) (h2 : RouteOrdered l2) :
    RouteOrdered (l1 ++ l2) := by
  induction h1 with
  | nil => simpa using h2
  | plain a l hrec hspeak h ih =>
    exact RouteOrdered.plain a (l ++ l2) hrec hspeak ih
  | capture l h ih =>
    exact RouteOrdered.capture (l ++ l2) ih
  | playback ans l h ih =>
    exact RouteOrdered.playback ans (l ++ l2) ih

/-- The startup actions are route ordered (no capture, no playback). -/
theorem routeOrdered_startup : RouteOrdered startup_trace := by
  refine RouteOrdered.plain _ _ (by simp) (by simp) ?_
  refine RouteOrdered.plain _ _ (by simp) (by simp) ?_
  refine RouteOrdered.plain _ _ (by simp) (by simp) ?_
  refine RouteOrdered.plain _ _ (by simp) (by simp) ?_
  exact RouteOrdered.nil

/-- The actions of a press-triggered session are route ordered: capture
happens right after the `handsfree_head_unit` switch and its 0.8 s
settle, playback right after the `a2dp_sink` switch and its 0.7 s
settle. -/
theorem routeOrdered_session (env : SessionEnv) :
    RouteOrdered (session_actions env).1 := by
  rw [session_actions]
  rcases (ask_llama env.transcript env.llama).result with _ | answer
  · refine RouteOrdered.capture _ ?_
    refine RouteOrdered.plain _ _ (by simp) (by simp) ?_
    refine RouteOrdered.plain _ _ (by simp) (by simp) ?_
    exact RouteOrdered.nil
  · refine RouteOrdered.capture _ ?_
    refine RouteOrdered.plain _ _ (by simp) (by simp) ?_
    refine RouteOrdered.plain _ _ (by simp) (by simp) ?_
    exact RouteOrdered.playback answer [] RouteOrdered.nil

/-- The actions of the hold-to-talk branch are route ordered. -/
theorem routeOrdered_hold (env : SessionEnv) :
    RouteOrdered (hold_actions env).1 := by
  rw [hold_actions]
  rcases (ask_llama env.transcript env.llama).result with _ | answer
  · refine RouteOrdered.plain _ _ (by simp) (by simp) ?_
    refine RouteOrdered.plain _ _ (by simp) (by simp) ?_
    exact RouteOrdered.nil
  · refine RouteOrdered.plain _ _ (by simp) (by simp) ?_
    refine RouteOrdered.plain _ _ (by simp) (by simp) ?_
    exact RouteOrdered.playback answer [] RouteOrdered.nil

/-- In a route-ordered trace, every occurrence of `record` is immediately
preceded by the switch to `handsfree_head_unit` and its 0.8 s settle
sleep. -/
theorem RouteOrdered.record_guarded {l : List Act} (h : RouteOrdered l) :
    ∀ l1 l2, l = l1 ++ Act.record :: l2 →
      ∃ l0, l1 = l0 ++ [Act.setProfile "handsfree_head_unit", Act.sleep 800] := by
  induction h with
  | nil =>
    intro l1 l2 heq
    exact absurd heq.symm (List.append_ne_nil_of_right_ne_nil l1 (by simp))
  | plain a l hrec hspeak h ih =>
    intro l1 l2 heq
    cases l1 with
    | nil =>
      simp at heq
      exact absurd heq.1 hrec
    | cons x l1t =>
      rw [List.cons_append] at heq
      obtain ⟨l0, hl0⟩ := ih l1t l2 (List.cons.inj heq).2
      exact ⟨x :: l0, by rw [hl0, List.cons_append]⟩
  | capture l h ih =>
    intro l1 l2 heq
    match l1, heq with
    | [], heq =>
      simp at heq
    | [x], heq =>
      simp at heq
    | [x, y], heq =>
      simp at heq
      exact ⟨[], by simp [← heq.1, ← heq.2.1]⟩
    | x :: y :: z :: l1t, heq =>
      simp only [List.cons_append] at heq
      have h2 := (List.cons.inj heq).2
      have h3 := (List.cons.inj h2).2
      obtain ⟨l0, hl0⟩ := ih l1t l2 (List.cons.inj h3).2
      exact ⟨x :: y :: z :: l0, by rw [hl0]; simp⟩
  | playback ans l h ih =>
    intro l1 l2 heq
    match l1, heq with
    | [], heq =>
      simp at heq
    | [x], heq =>
      simp at heq
    | [x, y], heq =>
      simp at heq
    | x :: y :: z :: l1t, heq =>
      simp only [List.cons_append] at heq
      have h2 := (List.cons.inj heq).2
      have h3 := (List.cons.inj h2).2
      obtain ⟨l0, hl0⟩ := ih l1t l2 (List.cons.inj h3).2
      exact ⟨x :: y :: z :: l0, by rw [hl0]; simp⟩

/-- In a route-ordered trace, every occurrence of `speak` is immediately
preceded by the switch to `a2dp_sink` and its 0.7 s settle sleep. -/
theorem RouteOrdered.speak_guarded {l : List Act} (h : RouteOrdered l) :
    ∀ l1 ans l2, l = l1 ++ Act.speak ans :: l2 →
      ∃ l0, l1 = l0 ++ [Act.setProfile "a2dp_sink", Act.sleep 700] := by
  induction h with
  | nil =>
    intro l1 ans l2 heq
    exact absurd heq.symm (List.append_ne_nil_of_right_ne_nil l1 (by simp))
  | plain a l hrec hspeak h ih =>
    intro l1 ans l2 heq
    cases l1 with
    | nil =>
      simp at heq
      exact absurd heq.1 (hspeak ans)
    | cons x l1t =>
      rw [List.cons_append] at heq
      obtain ⟨l0, hl0⟩ := ih l1t ans l2 (List.cons.inj heq).2
      exact ⟨x :: l0, by rw [hl0, List.cons_append]⟩
  | capture l h ih =>
    intro l1 ans l2 heq
    match l1, heq with
    | [], heq =>
      simp at heq
    | [x], heq =>
      simp at heq
    | [x, y], heq =>
      simp at heq
    | x :: y :: z :: l1t, heq =>
      simp only [List.cons_append] at heq
      have h2 := (List.cons.inj heq).2
      have h3 := (List.cons.inj h2).2
      obtain ⟨l0, hl0⟩ := ih l1t ans l2 (List.cons.inj h3).2
      exact ⟨x :: y :: z :: l0, by rw [hl0]; simp⟩
  | playback ans0 l h ih =>
    intro l1 ans l2 heq
    match l1, heq with
    | [], heq =>
      simp at heq
    | [x], heq =>
      simp at heq
    | [x, y], heq =>
      simp at heq
      exact ⟨[], by simp [← heq.1, ← heq.2.1]⟩
    | x :: y :: z :: l1t, heq =>
      simp only [List.cons_append] at heq
      have h2 := (List.cons.inj heq).2
      have h3 := (List.cons.inj h2).2
      obtain ⟨l0, hl0⟩ := ih l1t ans l2 (List.cons.inj h3).2
      exact ⟨x :: y :: z :: l0, by rw [hl0]; simp⟩

/- ### Invariants of the event loop -/

/-- A crashed process consumes no further events. -/
theorem foldl_crashed (env : Nat → SessionEnv) (events : List InputEvent)
    (s : LoopState) (h : s.crashed = true) :
    events.foldl (handle_event env) s = s := by
  induction events with
  | nil => rfl
  | cons e rest ih =>
    rw [List.foldl_cons, show handle_event env s e = s by
      simp [handle_event, h]]
    exact ih

/-- `is_recording` stays `False` across the loop and the hold branch
never runs: the loop never assigns `is_recording = True`. -/
theorem foldl_no_hold (env : Nat → SessionEnv) (events : List InputEvent)
    (s : LoopState) (h : s.is_recording = false) :
    (events.foldl (handle_event env) s).is_recording = false ∧
      (events.foldl (handle_event env) s).holdRuns = s.holdRuns := by
  induction events generalizing s with
  | nil => exact ⟨h, rfl⟩
  | cons e rest ih =>
    rw [List.foldl_cons]
    have hstep : (handle_event env s e).is_recording = false ∧
        (handle_event env s e).holdRuns = s.holdRuns := by
      rw [handle_event]
      rcases hc : s.crashed with _ | _
      · simp only [Bool.false_eq_true, if_false]
        rcases hp : is_press e with _ | _
        · simp [h]
        · simp [h]
      · simp [hc, h]
    obtain ⟨h1, h2⟩ := ih (handle_event env s e) hstep.1
    exact ⟨h1, by rw [h2, hstep.2]⟩

/-- As long as the process has not crashed, every qualifying press event
starts exactly one session, and nothing else does: sessions are strictly
sequential, one per press, each run to completion inside its own loop
iteration. -/
theorem foldl_session_count (env : Nat → SessionEnv) (events : List InputEvent)
    (s : LoopState) (hrec : s.is_recording = false)
    (hend : (events.foldl (handle_event env) s).crashed = false) :
    (events.foldl (handle_event env) s).sessions =
      s.sessions + (events.filter is_press).length := by
  induction events generalizing s with
  | nil => simp
  | cons e rest ih =>
    rw [List.foldl_cons] at hend ⊢
    rcases hc : s.crashed with _ | _
    · have hstep : (handle_event env s e).is_recording = false := by
        rw [handle_event]
        simp only [hc, Bool.false_eq_true, if_false]
        rcases hp : is_press e with _ | _
        · simp [hrec]
        · simp [hrec]
      have hses : (handle_event env s e).sessions =
          s.sessions + (if is_press e then 1 else 0) := by
        rw [handle_event]
        simp only [hc, Bool.false_eq_true, if_false]
        rcases hp : is_press e with _ | _
        · simp [hrec]
        · simp [hrec]
      rw [ih (handle_event env s e) hstep hend, hses]
      rcases hp : is_press e with _ | _
      · simp [List.filter_cons, hp]
      · simp [List.filter_cons, hp]
        omega
    · rw [show handle_event env s e = s by simp [handle_event, hc]] at hend ⊢
      rw [foldl_crashed env rest s hc] at hend
      rw [hend] at hc
      exact absurd hc (by simp)

/-- One loop iteration only ever appends a route-ordered block of actions
to the trace. -/
theorem handle_event_trace (env : Nat → SessionEnv) (s : LoopState)
    (e : InputEvent) :
    ∃ b, (handle_event env s e).trace = s.trace ++ b ∧ RouteOrdered b := by
  rw [handle_event]
  rcases hc : s.crashed with _ | _
  · simp only [Bool.false_eq_true, if_false]
    rcases hp : is_press e with _ | _
    · simp only [Bool.false_eq_true, if_false]
      rcases hc1 : s.crashed with _ | _
      · simp only [Bool.false_eq_true, if_false]
        rcases hr : s.is_recording with _ | _
        · simp only [Bool.false_eq_true, if_false]
          exact ⟨[], by simp, RouteOrdered.nil⟩
        · simp only [if_true]
          rcases ht : e.holdTimeout with _ | _
          · simp only [Bool.false_eq_true, if_false]
            exact ⟨[], by simp, RouteOrdered.nil⟩
          · simp only [if_true]
            exact ⟨(hold_actions (env s.sessions)).1, rfl, routeOrdered_hold _⟩
      · simp only [if_true]
        exact ⟨[], by simp, RouteOrdered.nil⟩
    · simp only [if_true]
      rcases hcr : (session_actions (env s.sessions)).2 with _ | _
      · simp only [hcr, Bool.false_eq_true, if_false]
        rcases hr : s.is_recording with _ | _
        · simp only [Bool.false_eq_true, if_false]
          exact ⟨(session_actions (env s.sessions)).1, rfl, routeOrdered_session _⟩
        · simp only [if_true]
          rcases ht : e.holdTimeout with _ | _
          · simp only [Bool.false_eq_true, if_false]
            exact ⟨(session_actions (env s.sessions)).1, rfl, routeOrdered_session _⟩
          · simp only [if_true]
            refine ⟨(session_actions (env s.sessions)).1 ++
              (hold_actions (env (s.sessions + 1))).1, ?_, ?_⟩
            · simp
            · exact RouteOrdered.append (routeOrdered_session _) (routeOrdered_hold _)
      · simp only [hcr, if_true]
        exact ⟨(session_actions (env s.sessions)).1, rfl, routeOrdered_session _⟩
  · simp only [if_true]
    exact ⟨[], by simp, RouteOrdered.nil⟩

/-- The event loop preserves route ordering of the trace and keeps its
first action. -/
theorem foldl_trace_invariant (env : Nat → SessionEnv)
    (events : List InputEvent) (s : LoopState)
    (hord : RouteOrdered s.trace)
    (hhead : s.trace.head? = some (Act.setProfile "off")) :
    RouteOrdered (events.foldl (handle_event env) s).trace ∧
      (events.foldl (handle_event env) s).trace.head? =
        some (Act.setProfile "off") := by
  induction events generalizing s with
  | nil => exact ⟨hord, hhead⟩
  | cons e rest ih =>
    rw [List.foldl_cons]
    obtain ⟨b, hb, hbord⟩ := handle_event_trace env s e
    apply ih
    · rw [hb]
      exact RouteOrdered.append hord hbord
    · rw [hb]
      cases htr : s.trace with
      | nil =>
        rw [htr] at hhead
        exact absurd hhead (by simp)
      | cons x xs =>
        rw [htr] at hhead
        simp at hhead
        simp [hhead]

/- ### Concrete inputs for witnesses and counterexamples -/

/-- A frame consumed by the spec endpointer comes from the input frame
sequence. -/
theorem spec_endpointer_subset (classify : List Nat → Bool)
    (frames : List (List Nat)) (now lastSpeech : Nat) (f : List Nat)
    (hf : f ∈ spec_endpointer_frames classify frames now lastSpeech) :
    f ∈ frames := by
  induction frames generalizing now lastSpeech with
  | nil =>
    simp [spec_endpointer_frames] at hf
  | cons g gs ih =>
    rw [spec_endpointer_frames] at hf
    by_cases hc : classify g = true
    · simp only [hc, if_true] at hf
      rcases List.mem_cons.mp hf with hf | hf
      · exact hf ▸ List.mem_cons_self g gs
      · exact List.mem_cons_of_mem g (ih _ _ hf)
    · simp only [hc, if_false] at hf
      by_cases hs : now + frame_duration - lastSpeech > silence_timeout_ms
      · simp only [hs, if_true] at hf
        simp at hf
        exact hf ▸ List.mem_cons_self g gs
      · simp only [hs, if_false] at hf
        rcases List.mem_cons.mp hf with hf | hf
        · exact hf ▸ List.mem_cons_self g gs
        · exact List.mem_cons_of_mem g (ih _ _ hf)

set_option maxRecDepth 4000 in
/-- A 500-byte stream (the source exhausted mid-frame) cuts into a single
short chunk. -/
theorem chunk_short : chunkFrames (List.replicate 500 0) = [List.replicate 500 0] := by
  have h1 : (0 :: List.replicate 499 0 : List Nat).length ≤ frame_size := by
    simp only [List.length_cons, List.length_replicate]
    decide
  rw [show (List.replicate 500 0 : List Nat) = 0 :: List.replicate 499 0 from rfl,
      chunkFrames, List.take_of_length_le h1, List.drop_eq_nil_of_le h1]
  simp [chunkFrames]

set_option maxRecDepth 4000 in
/-- On a 500-byte silent stream the capture loop processes exactly one
frame: the whole 500-byte remainder. -/
theorem short_stream_frames :
    (record_until_silence byte_classifier (List.replicate 500 0)).2.2 =
      [List.replicate 500 0] := by
  rw [record_until_silence, recLoop_frames_endpointer, chunk_short]
  decide

/-- A qualifying button-press event (`EV_KEY`, scancode 200, key state 1,
hold timer not expired). -/
def press_event : InputEvent :=
  { etype := EV_KEY, scancode := 200, keystate := 1, holdTimeout := false }

/-- A benign session environment: whisper hears `"hello"`, the dialog
service answers 200 with a well-formed body saying `"hi"`. -/
def ok_env : Nat → SessionEnv :=
  fun _ => { transcript := "hello",
             llama := LlamaOutcome.response 200 (HttpBody.parsed (goodJson "hi")) }

example : is_press press_event = true := rfl
example : (main_loop ok_env [press_event]).sessions = 1 := by decide
example : (main_loop ok_env [press_event, press_event]).sessions = 2 := by decide
example : (main_loop ok_env [press_event]).trace =
    startup_trace ++
      [Act.setProfile "handsfree_head_unit", Act.sleep 800, Act.record,
       Act.stt "hello", Act.askLlama "hello",
       Act.setProfile "a2dp_sink", Act.sleep 700, Act.speak "hi"] := by decide

/- ### Claim theorems -/

/-- Claim C1, counterexample: for a session whose transcript is the empty
string (and a perfectly healthy dialog service), `main` still invokes
`ask_llama` with the empty prompt and still invokes `tts_speak`; the
claim that neither is invoked is false on the code, which has no
emptiness test (lines 230-238). -/
theorem c1_counterexample :
    Act.askLlama "" ∈ (session_actions
      { transcript := "",
        llama := LlamaOutcome.response 200
          (HttpBody.parsed (goodJson "hi")) }).1 ∧
    Act.speak "hi" ∈ (session_actions
      { transcript := "",
        llama := LlamaOutcome.response 200
          (HttpBody.parsed (goodJson "hi")) }).1 := by
  constructor
  · decide
  · decide

/-- Claim C1, amended: for every session whose transcript is empty, the
pipeline continues rather than short-circuiting: `ask_llama` is always
invoked with the empty prompt, and whenever that call returns an answer
(instead of raising), `tts_speak` is invoked with it as well. -/
theorem c1_empty_transcript_no_shortcircuit (outcome : LlamaOutcome) :
    Act.askLlama "" ∈ (session_actions
      { transcript := "", llama := outcome }).1 ∧
    (∀ answer, (ask_llama "" outcome).result = Except.ok answer →
      Act.speak answer ∈ (session_actions
        { transcript := "", llama := outcome }).1) := by
  constructor
  · rw [session_actions]
    rcases (ask_llama "" outcome).result with _ | a
    · simp
    · simp
  · intro answer hans
    simp [session_actions, hans]

/-- Claim C1, witness: concrete instance of the amended claim. -/
theorem c1_witness :
    Act.speak "hi" ∈ (session_actions
      { transcript := "",
        llama := LlamaOutcome.response 200
          (HttpBody.parsed (goodJson "hi")) }).1 :=
  (c1_empty_transcript_no_shortcircuit
    (LlamaOutcome.response 200 (HttpBody.parsed (goodJson "hi")))).2
    "hi" (by decide)

/-- Claim C2, counterexample: on a dialog-service response with status
500, the session does not stop before synthesis: `tts_speak` is invoked
(with the empty answer `ask_llama` returned). -/
theorem c2_counterexample :
    Act.speak "" ∈ (session_actions
      { transcript := "what time is it",
        llama := LlamaOutcome.response 500
          (HttpBody.parsed (goodJson "unused")) }).1 := by
  decide

/-- Claim C2, amended: on every non-200 dialog-service response,
`ask_llama` returns the empty string and the session continues to the
playback stage: the profile is switched to `a2dp_sink` and `tts_speak`
is invoked with the empty answer, after which the loop waits for the
next event. -/
theorem c2_non200_still_speaks (t : String) (status : Nat) (body : HttpBody)
    (h : status ≠ 200) :
    (session_actions
      { transcript := t, llama := LlamaOutcome.response status body }).1 =
      [Act.setProfile "handsfree_head_unit", Act.sleep 800, Act.record,
       Act.stt t, Act.askLlama t,
       Act.setProfile "a2dp_sink", Act.sleep 700, Act.speak ""] := by
  have hres : (ask_llama t (LlamaOutcome.response status body)).result =
      Except.ok "" := by
    simp [ask_llama, h]
  simp [session_actions, hres]

/-- Claim C2, witness: concrete instance of the amended claim at
status 500. -/
theorem c2_witness :
    (session_actions
      { transcript := "hi",
        llama := LlamaOutcome.response 500
          (HttpBody.parsed (goodJson "ignored")) }).1 =
      [Act.setProfile "handsfree_head_unit", Act.sleep 800, Act.record,
       Act.stt "hi", Act.askLlama "hi",
       Act.setProfile "a2dp_sink", Act.sleep 700, Act.speak ""] :=
  c2_non200_still_speaks "hi" 500
    (HttpBody.parsed (goodJson "ignored")) (by decide)

/-- Claim C3, counterexample: two of the three outcomes the claim covers
do not return the empty string: a timeout and a malformed (non-JSON)
200-response body both raise an exception that escapes `ask_llama`
(`requests.post` raises `Timeout`; `r.json()` raises a decode error;
neither is inside the `try`). -/
theorem c3_counterexample :
    (ask_llama "hi" LlamaOutcome.timeout).result =
      Except.error LlamaError.timeout ∧
    (ask_llama "hi" (LlamaOutcome.response 200
      (HttpBody.malformed "<html>busy</html>"))).result =
      Except.error LlamaError.jsonDecode := by
  exact ⟨rfl, rfl⟩

/-- Claim C3, amended: `ask_llama` issues exactly one request (never a
retry) whatever the outcome; a non-200 status returns the empty string,
as does a 200 JSON body from which `choices[0].message.content` cannot
be extracted; but a timeout raises `requests.Timeout` and a non-JSON
body raises a JSON decode error, both propagating to the caller instead
of being turned into an empty answer. -/
theorem c3_ask_llama_outcomes (prompt : String) :
    (∀ outcome, (ask_llama prompt outcome).requests = [prompt]) ∧
    (∀ status body, status ≠ 200 →
      (ask_llama prompt (LlamaOutcome.response status body)).result =
        Except.ok "") ∧
    ((ask_llama prompt LlamaOutcome.timeout).result =
      Except.error LlamaError.timeout) ∧
    (∀ raw, (ask_llama prompt (LlamaOutcome.response 200
      (HttpBody.malformed raw))).result =
        Except.error LlamaError.jsonDecode) ∧
    (∀ j, extract_content j = none →
      (ask_llama prompt (LlamaOutcome.response 200
        (HttpBody.parsed j))).result = Except.ok "") := by
  refine ⟨fun outcome => rfl, fun status body h => by simp [ask_llama, h],
    rfl, fun raw => rfl, fun j hj => by simp [ask_llama, hj]⟩

/-- Claim C3, witness: concrete instance of the amended claim at a 503
status. -/
theorem c3_witness :
    (ask_llama "hi" (LlamaOutcome.response 503
      (HttpBody.malformed "busy"))).result = Except.ok "" :=
  (c3_ask_llama_outcomes "hi").2.1 503 (HttpBody.malformed "busy") (by decide)

/-- Claim C4: the capture loop stops exactly where the spec's endpointing
policy says (lastSpeechTimestamp initialised to session start, updated
to the arrival time of every Speech frame, EndOfUtterance on the first
Silence frame with now - lastSpeechTimestamp > 1.0 s); consequently, a
stream none of whose frames is classified as speech stops within the
silence timeout of session start plus at most one frame duration. -/
theorem c4_endpointing :
    (∀ (classify : List Nat → Bool) (stream : List Nat),
      (record_until_silence classify stream).2.2 =
        spec_endpointer_frames classify (chunkFrames stream) 0 0) ∧
    (∀ (classify : List Nat → Bool) (stream : List Nat),
      (∀ f ∈ chunkFrames stream, classify f = false) →
      (record_until_silence classify stream).2.1 ≤
        silence_timeout_ms + frame_duration) := by
  constructor
  · intro classify stream
    exact recLoop_frames_endpointer classify stream 0 0
  · intro classify stream h
    have hsil : ∀ f ∈ (recLoop classify stream 0 0).2.2,
        classify f = false := by
      intro f hf
      rw [recLoop_frames_endpointer] at hf
      exact h f (spec_endpointer_subset classify _ 0 0 f hf)
    have := recLoop_silent_stop classify stream 0 0 (by simp) hsil
    simpa using this

/-- Claim C4, witness: a six-second all-silence stream stops within
1030 ms of session start. -/
theorem c4_witness :
    (record_until_silence (fun _ => false) (List.replicate 96000 0)).2.1 ≤
      silence_timeout_ms + frame_duration :=
  c4_endpointing.2 (fun _ => false) (List.replicate 96000 0)
    (fun _ _ => rfl)

/-- Claim C5, counterexample: two qualifying press events each start a
session — the loop buffers events arriving while a session runs and then
processes them, so a press during an active session is deferred, not
ignored, and a second session is created from it. -/
theorem c5_counterexample :
    (main_loop ok_env [press_event, press_event]).sessions = 2 := by
  decide

/-- Claim C5, amended: sessions are strictly sequential — each press is
handled to completion inside its own loop iteration, so at most one
session is ever active — but a press arriving while a session is active
is not discarded: as long as the process has not crashed, every
qualifying press event starts exactly one session of its own. -/
theorem c5_sessions_sequential (env : Nat → SessionEnv)
    (events : List InputEvent)
    (h : (main_loop env events).crashed = false) :
    (main_loop env events).sessions = (events.filter is_press).length := by
  rw [main_loop] at h ⊢
  rw [foldl_session_count env events initial_state rfl h]
  simp [initial_state]

/-- Claim C5, witness: concrete instance of the amended claim with two
presses. -/
theorem c5_witness :
    (main_loop ok_env [press_event, press_event]).sessions =
      ([press_event, press_event].filter is_press).length :=
  c5_sessions_sequential ok_env [press_event, press_event] (by decide)

/-- Claim C6: at process start the profile is forced to `off` as the very
first profile action; and in every run, wherever capture (`record`)
appears in the trace it is immediately preceded by the switch to
`handsfree_head_unit` followed by its 0.8 s settle sleep, and wherever
playback (`speak`) appears it is immediately preceded by the switch to
`a2dp_sink` followed by its 0.7 s settle sleep. -/
theorem c6_route_ordering (env : Nat → SessionEnv)
    (events : List InputEvent) :
    (main_loop env events).trace.head? = some (Act.setProfile "off") ∧
    (∀ l1 l2, (main_loop env events).trace = l1 ++ Act.record :: l2 →
      ∃ l0, l1 = l0 ++ [Act.setProfile "handsfree_head_unit",
        Act.sleep 800]) ∧
    (∀ l1 ans l2, (main_loop env events).trace =
        l1 ++ Act.speak ans :: l2 →
      ∃ l0, l1 = l0 ++ [Act.setProfile "a2dp_sink", Act.sleep 700]) := by
  obtain ⟨hord, hhead⟩ := foldl_trace_invariant env events initial_state
    routeOrdered_startup rfl
  exact ⟨hhead, fun l1 l2 h => hord.record_guarded l1 l2 h,
    fun l1 ans l2 h => hord.speak_guarded l1 ans l2 h⟩

/-- Claim C6, witness: in the one-session run the (only) `record` action
is indeed preceded by the capture switch and settle sleep. -/
theorem c6_witness :
    ∃ l0, startup_trace ++ [Act.setProfile "handsfree_head_unit",
        Act.sleep 800] =
      l0 ++ [Act.setProfile "handsfree_head_unit", Act.sleep 800] :=
  (c6_route_ordering ok_env [press_event]).2.1
    (startup_trace ++ [Act.setProfile "handsfree_head_unit", Act.sleep 800])
    [Act.stt "hello", Act.askLlama "hello",
     Act.setProfile "a2dp_sink", Act.sleep 700, Act.speak "hi"]
    (by decide)

/-- Claim C7, counterexample: when the underlying `pactl` command fails,
`bt_set_profile` still reports nothing to its caller (it discards the
command's result and output), and the startup reset continues into the
event loop even when both of its switches fail — no `RouteError` is
returned, and nothing terminates or retries. -/
theorem c7_counterexample :
    bt_set_profile "off" CmdResult.failure = none ∧
    startup_reset_continues CmdResult.failure CmdResult.failure = true :=
  ⟨rfl, rfl⟩

/-- Claim C7, amended: route failures are silently ignored —
`bt_set_profile` returns no error for any profile and any command
outcome, and the startup reset proceeds into the event loop regardless
of the results of its two switches. -/
theorem c7_route_errors_ignored :
    (∀ (profile : String) (cmd : CmdResult),
      bt_set_profile profile cmd = none) ∧
    (∀ (r1 r2 : CmdResult), startup_reset_continues r1 r2 = true) :=
  ⟨fun _ _ => rfl, fun _ _ => rfl⟩

/-- Claim C8: every frame read is appended to the recording before and
regardless of its classification — the audio is exactly the
concatenation of all processed frames and is a prefix of the source
stream — and in the spec's scenario (2.01 s of speech then silence) the
capture runs to 3030 ms and 101 frames, retaining the trailing silence
up to the timeout rather than only the speech. -/
theorem c8_all_frames_appended :
    (∀ (classify : List Nat → Bool) (stream : List Nat),
      (record_until_silence classify stream).1 =
        ((record_until_silence classify stream).2.2).flatten ∧
      ∃ n, (record_until_silence classify stream).1 = stream.take n) ∧
    ((record_until_silence byte_classifier scenario_stream).2.2.length = 101 ∧
     (record_until_silence byte_classifier scenario_stream).2.1 = 3030) :=
  ⟨fun classify stream =>
    ⟨recLoop_audio_flatten classify stream 0 0,
     recLoop_audio_take classify stream 0 0⟩,
   scenario_frame_count, scenario_stop_time⟩

/-- Claim C9, counterexample: a 500-byte source stream (exhausted
mid-frame) makes the loop append to the recording and hand to the
classifier a single frame of 500 bytes, not
`sample_rate * frame_duration / 1000 * 2 = 960` bytes. -/
theorem c9_counterexample :
    ((record_until_silence byte_classifier
        (List.replicate 500 0)).2.2).map List.length = [500] ∧
    (500 : Nat) ≠ sample_rate * frame_duration / 1000 * 2 := by
  constructor
  · rw [short_stream_frames]
    simp only [List.map_cons, List.map_nil, List.length_replicate]
  · decide

/-- Claim C9, amended: every frame the capture loop processes is nonempty
and at most `frame_size = 960` bytes, and every frame other than the
final one is exactly `frame_size` bytes; only the final frame can be
shorter, when the source is exhausted mid-frame. -/
theorem c9_frame_sizes (classify : List Nat → Bool) (stream : List Nat) :
    (∀ f ∈ (record_until_silence classify stream).2.2,
      0 < f.length ∧ f.length ≤ frame_size) ∧
    (∀ f ∈ ((record_until_silence classify stream).2.2).dropLast,
      f.length = frame_size) :=
  recLoop_frame_sizes classify stream 0 0

/-- Claim C9, witness: concrete instance of the amended claim on the
500-byte stream. -/
theorem c9_witness :
    0 < (List.replicate 500 (0 : Nat)).length ∧
      (List.replicate 500 (0 : Nat)).length ≤ frame_size :=
  (c9_frame_sizes byte_classifier (List.replicate 500 0)).1
    (List.replicate 500 0)
    (by rw [short_stream_frames]; exact List.mem_cons_self _ _)

/-- Claim C10: `is_recording` is initialised to `False` and never
assigned `True`, so the hold-to-talk release branch never runs in any
execution of the event loop: every session's recording comes from
`record_until_silence` alone. -/
theorem c10_hold_branch_unreachable (env : Nat → SessionEnv)
    (events : List InputEvent) :
    (main_loop env events).is_recording = false ∧
      (main_loop env events).holdRuns = 0 := by
  have h := foldl_no_hold env events initial_state rfl
  rw [main_loop]
  exact ⟨h.1, h.2.trans rfl⟩
